import Mathlib

/-!
Shallow embedding of the devops-upm-proxy synchronization pipeline and
registry projector, translated from the Python sources:
  scraper/enums.py, common/npm_classes.py, scraper/devops_scraping.py,
  scraper/mongo_functions.py, scraper/app.py, proxy/server.py.
Python dicts are modelled as association lists with first-match lookup,
HTTP request outcomes as an explicit sum, and the run loop of
`download` as a structurally recursive fold emitting an event trace.
-/

namespace UpmProxy

/-- Status of a given package in Mongo (scraper/enums.py, MongoPackageStatus). -/
inductive MongoPackageStatus
  | NOT_FOUND
  | OUT_OF_DATE
  | UP_TO_DATE
deriving DecidableEq, Repr

/-- What error occurred for a failed request (scraper/enums.py, NetworkError). -/
inductive NetworkError
  | TIMEOUT
  | HTTP_ERROR
  | DEVOPS_AUTH_FAILURE
  | STATUS_CLIENT_ERROR
  | STATUS_SERVER_ERROR
deriving DecidableEq, Repr

/-- What the caller function should do (scraper/enums.py, ReturnStatus). -/
inductive ReturnStatus
  | RETURN
  | CONTINUE
  | PASS
deriving DecidableEq, Repr

/-- Stores info about a specific version of a NPM package from DevOps
(common/npm_classes.py, NpmPackageVersion). Fields typed `str` in Python but
defaulted to `None` are modelled as `Option String`; the `hide_in_editor`
dataclass default is `True`. -/
structure NpmPackageVersion where
  version_number : String
  description : String
  publish_date : String
  dependencies : List (String × String)
  shasum : Option String := none
  tarball : Option String := none
  author : Option String := none
  display_name : Option String := none
  unity : Option String := none
  category : Option String := none
  hide_in_editor : Bool := true
deriving DecidableEq, Repr

/-- Stores info about a NPM package from DevOps (common/npm_classes.py,
NpmPackage). The `versions` dict is an association list keyed by version id. -/
structure NpmPackage where
  name : String
  latest_version : String
  versions : List (String × NpmPackageVersion) := []
deriving DecidableEq, Repr

/-- Outcome of one `requests.get` call: the exceptions caught by
`get_from_devops`, or a response carrying a status code and a decoded body. -/
inductive RequestOutcome (α : Type)
  | timeout
  | httpError
  | connectionError
  | success (status_code : Nat) (body : α)
deriving DecidableEq, Repr

/-- scraper/devops_scraping.py, `get_from_devops`: classify the outcome of an
authenticated GET. Timeout maps to TIMEOUT; HTTPError and ConnectionError
both map to HTTP_ERROR; status 203 (the DevOps soft auth rejection) maps to
DEVOPS_AUTH_FAILURE before the generic ranges; 4xx to STATUS_CLIENT_ERROR;
5xx to STATUS_SERVER_ERROR; anything else returns the raw response. -/
def get_from_devops {α : Type} (outcome : RequestOutcome α) : (Nat × α) ⊕ NetworkError :=
  match outcome with
  | .timeout => .inr NetworkError.TIMEOUT
  | .httpError => .inr NetworkError.HTTP_ERROR
  | .connectionError => .inr NetworkError.HTTP_ERROR
  | .success status_code body =>
    if status_code = 203 then
      .inr NetworkError.DEVOPS_AUTH_FAILURE
    else if 400 ≤ status_code ∧ status_code < 500 then
      .inr NetworkError.STATUS_CLIENT_ERROR
    else if 500 ≤ status_code ∧ status_code < 600 then
      .inr NetworkError.STATUS_SERVER_ERROR
    else
      .inl (status_code, body)

/-- One dependency entry of a feed version record
(external interface: `dependencies:[{packageName, versionRange}]`). -/
structure FeedDependency where
  packageName : String
  versionRange : String
deriving DecidableEq, Repr

/-- One entry of the `value` list of a feed-versions response
(external interface: `{version, description?, publishDate, dependencies}`). -/
structure FeedVersionEntry where
  version : String
  description : Option String
  publishDate : String
  dependencies : List FeedDependency
deriving DecidableEq, Repr

/-- Python truthiness fallback `x or fb` for an optional string: `None` and
the empty string are falsy. -/
def pyOr (x : Option String) (fb : String) : String :=
  match x with
  | none => fb
  | some s => if s = "" then fb else s

/-- scraper/devops_scraping.py, `get_npm_versions_from_devops_feed`: fetch the
feed-versions document for one package and build the version dict; the
description falls back to the empty string, dependencies are taken verbatim. -/
def get_npm_versions_from_devops_feed
    (devops_feed_response : RequestOutcome (List FeedVersionEntry)) :
    (List (String × NpmPackageVersion)) ⊕ NetworkError :=
  match get_from_devops devops_feed_response with
  | .inr ne => .inr ne
  | .inl resp =>
    let devops_versions := resp.2
    .inl (devops_versions.map fun devops_version =>
      (devops_version.version,
        { version_number := devops_version.version
          description := pyOr devops_version.description ""
          publish_date := devops_version.publishDate
          dependencies := devops_version.dependencies.map fun dep =>
            (dep.packageName, dep.versionRange) }))

/-- The `author?:{name}` object of a registry version record. -/
structure RegistryAuthor where
  name : String
deriving DecidableEq, Repr

/-- The `dist:{shasum,tarball}` object of a registry version record. -/
structure RegistryDist where
  shasum : Option String
  tarball : Option String
deriving DecidableEq, Repr

/-- One entry of the registry document version map (external interface:
`{dist, author?, displayName?, unity?, category?, hideInEditor?}`). -/
structure RegistryVersion where
  dist : RegistryDist
  author : Option RegistryAuthor
  displayName : Option String
  unity : Option String
  category : Option String
  hideInEditor : Option Bool
deriving DecidableEq, Repr

/-- A registry document: its `versions` map, keyed by version id. -/
structure RegistryDoc where
  versions : List (String × RegistryVersion)
deriving DecidableEq, Repr

/-- The per-version enrichment body of
`get_extra_npm_info_from_devops_npm_registry` (scraper/devops_scraping.py
lines 181-204): copy dist fields, resolve author via the fallback author,
display name via the package name, unity and category via literal markers,
and the hideInEditor flag via `or False`. -/
def enrichVersion (fallback_author : String) (package_name : String)
    (npm_pkg_version : NpmPackageVersion) (json_version : RegistryVersion) :
    NpmPackageVersion :=
  let author := json_version.author
  { npm_pkg_version with
    shasum := json_version.dist.shasum
    tarball := json_version.dist.tarball
    author := some (match author with
      | some a => a.name
      | none => fallback_author)
    display_name := some (pyOr json_version.displayName package_name)
    unity := some (pyOr json_version.unity "Unknown Unity Version")
    category := some (pyOr
      (match json_version.category, author with
        | none, some a => some a.name
        | c, _ => c) "Unknown")
    hide_in_editor := json_version.hideInEditor.getD false }

/-- scraper/devops_scraping.py, `get_extra_npm_info_from_devops_npm_registry`:
fetch the registry document and, for each already-merged version, look up the
same version id in the registry version map; versions absent from the
registry are skipped (with a warning), present ones are enriched. -/
def get_extra_npm_info_from_devops_npm_registry
    (fallback_author : String) (package_name : String)
    (package_versions : List (String × NpmPackageVersion))
    (devops_registry_response : RequestOutcome RegistryDoc) :
    (List (String × NpmPackageVersion)) ⊕ NetworkError :=
  match get_from_devops devops_registry_response with
  | .inr ne => .inr ne
  | .inl resp =>
    let devops_versions := resp.2.versions
    .inl (package_versions.filterMap fun p =>
      match devops_versions.lookup p.1 with
      | none => none
      | some json_version =>
        some (p.1, enrichVersion fallback_author package_name p.2 json_version))

/-- scraper/devops_scraping.py, `validate_package_versions`: route a download
result into the orchestrator decision. DEVOPS_AUTH_FAILURE returns RETURN;
any other NetworkError increments a local copy of the error counter, returns
RETURN when that copy reaches 5 and CONTINUE otherwise (the increment is not
visible to the caller: Python integers are passed by value); an empty version
dict returns CONTINUE; otherwise PASS. -/
def validate_package_versions (_package_name : String)
    (package_versions : (List (String × NpmPackageVersion)) ⊕ NetworkError)
    (_download_location : String) (_error_message : String)
    (non_serious_error_count : Nat) : ReturnStatus :=
  match package_versions with
  | .inr ne =>
    match ne with
    | NetworkError.DEVOPS_AUTH_FAILURE => ReturnStatus.RETURN
    | _ =>
      let non_serious_error_count := non_serious_error_count + 1
      if non_serious_error_count = 5 then ReturnStatus.RETURN
      else ReturnStatus.CONTINUE
  | .inl pv =>
    if pv.length = 0 then ReturnStatus.CONTINUE
    else ReturnStatus.PASS

/-- The Mongo packages collection. Each stored document is keyed by the
package name; `some p` is a document that dacite deserialises into an
`NpmPackage`, `none` a document on which `dacite.from_dict` raises
`WrongTypeError`. `find_one` is first-match lookup by name. -/
structure MongoStore where
  docs : List (String × Option NpmPackage)
deriving DecidableEq, Repr

/-- `packages_collection.find_one` on a name filter. -/
def MongoStore.find_one (packages_collection : MongoStore) (package_name : String) :
    Option (Option NpmPackage) :=
  packages_collection.docs.lookup package_name

/-- `packages_collection.delete_one` on a name filter: removes the first
matching document. -/
def MongoStore.delete_one (packages_collection : MongoStore) (package_name : String) :
    MongoStore :=
  ⟨packages_collection.docs.eraseP fun d => d.1 == package_name⟩

/-- `packages_collection.insert_one` of a serialised package
(`dataclasses.asdict` writes every field, so the stored document always
deserialises back to the same package). -/
def MongoStore.insert_one (packages_collection : MongoStore) (new_package : NpmPackage) :
    MongoStore :=
  ⟨packages_collection.docs ++ [(new_package.name, some new_package)]⟩

/-- scraper/mongo_functions.py, `check_package_status_in_mongo`: NOT_FOUND if
the package is absent or its stored document fails to deserialise; UP_TO_DATE
if the stored `latest_version` equals the DevOps one; OUT_OF_DATE otherwise. -/
def check_package_status_in_mongo (package_name : String)
    (package_latest_version : String) (packages_collection : MongoStore) :
    MongoPackageStatus :=
  match packages_collection.find_one package_name with
  | none => MongoPackageStatus.NOT_FOUND
  | some none => MongoPackageStatus.NOT_FOUND
  | some (some found_package) =>
    if found_package.latest_version = package_latest_version then
      MongoPackageStatus.UP_TO_DATE
    else
      MongoPackageStatus.OUT_OF_DATE

/-- One entry of the DevOps package list (`{name, versions[0].version,
links.versions.href}`), as read by `download` in scraper/app.py. -/
structure PackageEntry where
  name : String
  latest : String
  versions_href : String
deriving DecidableEq, Repr

/-- The upstream network as seen by one run: the request outcome of the
package-list fetch, and of the feed and registry fetches per URL. -/
structure SyncEnv where
  fallback_author : String
  packageListOutcome : RequestOutcome (List PackageEntry)
  feedOutcome : String → RequestOutcome (List FeedVersionEntry)
  registryOutcome : String → RequestOutcome RegistryDoc

/-- Observable actions of one run: upstream fetches and store mutations. -/
inductive RunEvent
  | fetchFeed (package_name : String)
  | fetchRegistry (package_name : String)
  | deleteOne (package_name : String)
  | insertOne (new_package : NpmPackage)
deriving DecidableEq, Repr

/-- How the package loop of `download` ended: fell off the end of the list,
or returned early from inside the loop. -/
inductive RunOutcome
  | completed
  | abortedEarly
deriving DecidableEq, Repr

/-- The package loop of `download` (scraper/app.py lines 51-121): per package,
check Mongo status (skip when UP_TO_DATE), fetch feed versions, route through
`validate_package_versions`, fetch and merge registry info, route again, then
delete the stale document (when OUT_OF_DATE) and insert the new one.
`non_serious_error_count` is passed to each validate call exactly as in the
source: the variable in `download` is never reassigned. -/
def processPackages (env : SyncEnv) (packages_collection : MongoStore)
    (non_serious_error_count : Nat) :
    List PackageEntry → List RunEvent × MongoStore × RunOutcome
  | [] => ([], packages_collection, RunOutcome.completed)
  | package_response :: rest =>
    let package_name := package_response.name
    let package_latest_version := package_response.latest
    let mongo_package_status :=
      check_package_status_in_mongo package_name package_latest_version
        packages_collection
    if mongo_package_status = MongoPackageStatus.UP_TO_DATE then
      processPackages env packages_collection non_serious_error_count rest
    else
      let package_versions :=
        get_npm_versions_from_devops_feed
          (env.feedOutcome package_response.versions_href)
      let ev1 : List RunEvent := [RunEvent.fetchFeed package_name]
      match validate_package_versions package_name package_versions
          "DevOps Artifact feed" "Here be dragons!" non_serious_error_count with
      | ReturnStatus.RETURN => (ev1, packages_collection, RunOutcome.abortedEarly)
      | ReturnStatus.CONTINUE =>
        let r := processPackages env packages_collection non_serious_error_count rest
        (ev1 ++ r.1, r.2.1, r.2.2)
      | ReturnStatus.PASS =>
        -- PASS implies the feed result was a non-empty version dict
        let pv := match package_versions with
          | Sum.inl l => l
          | Sum.inr _ => []
        let package_versions2 :=
          get_extra_npm_info_from_devops_npm_registry env.fallback_author
            package_name pv (env.registryOutcome package_name)
        let ev2 := ev1 ++ [RunEvent.fetchRegistry package_name]
        match validate_package_versions package_name package_versions2
            "DevOps NPM registry"
            "This is probably because all package versions only exist in DevOps Artifact feed, with none in the DevOps NPM registry"
            non_serious_error_count with
        | ReturnStatus.RETURN => (ev2, packages_collection, RunOutcome.abortedEarly)
        | ReturnStatus.CONTINUE =>
          let r := processPackages env packages_collection non_serious_error_count rest
          (ev2 ++ r.1, r.2.1, r.2.2)
        | ReturnStatus.PASS =>
          let pv2 := match package_versions2 with
            | Sum.inl l => l
            | Sum.inr _ => []
          let new_package : NpmPackage :=
            { name := package_name
              latest_version := package_latest_version
              versions := pv2 }
          let deleteEvs : List RunEvent :=
            if mongo_package_status = MongoPackageStatus.OUT_OF_DATE then
              [RunEvent.deleteOne package_name]
            else []
          let store1 :=
            if mongo_package_status = MongoPackageStatus.OUT_OF_DATE then
              packages_collection.delete_one package_name
            else packages_collection
          let store2 := store1.insert_one new_package
          let r := processPackages env store2 non_serious_error_count rest
          (ev2 ++ deleteEvs ++ [RunEvent.insertOne new_package] ++ r.1, r.2.1, r.2.2)

/-- Result of one `download` run: `crashed` models the uncaught
AttributeError raised when `.json()` is evaluated on a `NetworkError` value. -/
inductive DownloadResult
  | crashed
  | ran (events : List RunEvent) (store : MongoStore) (outcome : RunOutcome)
deriving DecidableEq, Repr

/-- scraper/app.py, `download`: fetch the DevOps package list, then loop over
the packages with a fresh `non_serious_error_count = 0`. When the list fetch
yields a `NetworkError`, the source logs the failure but does not return; the
very next statement calls `.json()` on the `NetworkError` value, which raises
(modelled as `crashed`). -/
def download (env : SyncEnv) (packages_collection : MongoStore) : DownloadResult :=
  match get_from_devops env.packageListOutcome with
  | .inr _ => DownloadResult.crashed
  | .inl resp =>
    let devops_package_list := resp.2
    let non_serious_error_count := 0
    let r := processPackages env packages_collection non_serious_error_count
      devops_package_list
    DownloadResult.ran r.1 r.2.1 r.2.2

/-- proxy/server.py, `LICENSE`: fixed license constant. -/
def LICENSE : String := "proprietary"

/-- One per-version sub-document built by `package_route`
(proxy/server.py lines 78-97), field for field. -/
structure ProjectedVersionDoc where
  idField : String
  shasumField : Option String
  name : String
  author : Option String
  dependencies : List (String × String)
  description : String
  directories : Option String
  dist_shasum : Option String
  dist_tarball : Option String
  license : String
  version : String
  displayName : Option String
  unity : Option String
  category : Option String
  hideInEditor : Bool
deriving DecidableEq, Repr

/-- The root document built by `package_route` (proxy/server.py lines
99-117), field for field; `revField` is the `_rev` random token and
`dist_tags_latest` the sole entry of the `dist-tags` object. -/
structure ProjectedPackageDoc where
  idField : String
  revField : String
  name : String
  description : String
  license : String
  dist_tags_latest : String
  versions : List (String × ProjectedVersionDoc)
  time : List (String × String)
  displayName : Option String
  unity : Option String
  category : Option String
  hideInEditor : Bool
  author : Option String
deriving DecidableEq, Repr

/-- The per-version sub-document of `package_route`: ids, dist fields,
dependencies and display fields copied from the stored version. -/
def projectVersion (package_name : String) (version : NpmPackageVersion) :
    ProjectedVersionDoc :=
  { idField := package_name ++ "@" ++ version.version_number
    shasumField := version.shasum
    name := package_name
    author := version.author
    dependencies := version.dependencies
    description := version.description
    directories := none
    dist_shasum := version.shasum
    dist_tarball := version.tarball
    license := LICENSE
    version := version.version_number
    displayName := version.display_name
    unity := version.unity
    category := version.category
    hideInEditor := version.hide_in_editor }

/-- The projection body of `package_route` (proxy/server.py lines 70-117)
after a successful store read: look up `versions[latest_version]` (a missing
key raises, modelled as `none`), then build the version map, the publish-time
map and the root document. The `_rev` random token is the `rev` parameter. -/
def package_route_project (package_name : String) (package : NpmPackage)
    (rev : String) : Option ProjectedPackageDoc :=
  match package.versions.lookup package.latest_version with
  | none => none
  | some latest_version =>
    some
      { idField := package_name
        revField := rev
        name := package_name
        description := latest_version.description
        license := LICENSE
        dist_tags_latest := latest_version.version_number
        versions := package.versions.map fun p =>
          (p.2.version_number, projectVersion package_name p.2)
        time := package.versions.map fun p =>
          (p.2.version_number, p.2.publish_date)
        displayName := latest_version.display_name
        unity := latest_version.unity
        category := latest_version.category
        hideInEditor := latest_version.hide_in_editor
        author := latest_version.author }

/-- The HTTP result of `package_route`: 404 when the package is absent, 500
when the stored document fails to deserialise, a 500 server fault when
`versions[latest_version]` raises, or the projected document. -/
inductive RouteResult
  | notFound404
  | deserialiseError500
  | projectionError500
  | ok (doc : ProjectedPackageDoc)
deriving DecidableEq, Repr

/-- proxy/server.py, `package_route`: find the package by name (404 when
absent), deserialise it (500 when dacite raises), then project it; the
uncaught KeyError on a missing latest version surfaces as a server-side 500. -/
def package_route (package_name : String) (store : MongoStore) (rev : String) :
    RouteResult :=
  match store.find_one package_name with
  | none => RouteResult.notFound404
  | some none => RouteResult.deserialiseError500
  | some (some package) =>
    match package_route_project package_name package rev with
    | none => RouteResult.projectionError500
    | some doc => RouteResult.ok doc

/-- dacite deserialisation of the optional `hide_in_editor` field of a stored
version document: a missing field takes the `NpmPackageVersion` dataclass
default (`hide_in_editor: bool = True`, common/npm_classes.py line 23); a
present field is read verbatim. -/
def deserialise_hide_in_editor (stored_field : Option Bool) : Bool :=
  match stored_field with
  | none => true
  | some b => b

/-- C5: `get_from_devops` classifies every HTTP fetch outcome as: a request
timeout yields TIMEOUT; an HTTPError or ConnectionError yields HTTP_ERROR;
status 203 (the soft auth rejection) yields DEVOPS_AUTH_FAILURE; a status in
400-499 yields STATUS_CLIENT_ERROR; a status in 500-599 yields
STATUS_SERVER_ERROR; every other response is returned unmodified. -/
theorem get_from_devops_classification {α : Type} (s : Nat) (b : α) :
    (get_from_devops (RequestOutcome.timeout : RequestOutcome α)
        = Sum.inr NetworkError.TIMEOUT)
  ∧ (get_from_devops (RequestOutcome.httpError : RequestOutcome α)
        = Sum.inr NetworkError.HTTP_ERROR)
  ∧ (get_from_devops (RequestOutcome.connectionError : RequestOutcome α)
        = Sum.inr NetworkError.HTTP_ERROR)
  ∧ (get_from_devops (RequestOutcome.success 203 b)
        = Sum.inr NetworkError.DEVOPS_AUTH_FAILURE)
  ∧ (400 ≤ s → s < 500 → get_from_devops (RequestOutcome.success s b)
        = Sum.inr NetworkError.STATUS_CLIENT_ERROR)
  ∧ (500 ≤ s → s < 600 → get_from_devops (RequestOutcome.success s b)
        = Sum.inr NetworkError.STATUS_SERVER_ERROR)
  ∧ (s ≠ 203 → ¬(400 ≤ s ∧ s < 600) →
        get_from_devops (RequestOutcome.success s b) = Sum.inl (s, b)) := by
  refine ⟨rfl, rfl, rfl, by simp [get_from_devops], ?_, ?_, ?_⟩
  · intro h1 h2
    have hs : ¬(s = 203) := by omega
    simp [get_from_devops, hs, h1, h2]
  · intro h1 h2
    have hs : ¬(s = 203) := by omega
    have hc : ¬(400 ≤ s ∧ s < 500) := by omega
    simp [get_from_devops, hs, hc, h1, h2]
  · intro hs hr
    have hc : ¬(400 ≤ s ∧ s < 500) := by omega
    have hsv : ¬(500 ≤ s ∧ s < 600) := by omega
    simp [get_from_devops, hs, hc, hsv]

/-- Witness for C5 at concrete statuses 404, 503 and 200. -/
theorem get_from_devops_classification_witness :
    (get_from_devops (RequestOutcome.success 404 (0 : Nat))
        = Sum.inr NetworkError.STATUS_CLIENT_ERROR)
  ∧ (get_from_devops (RequestOutcome.success 503 (0 : Nat))
        = Sum.inr NetworkError.STATUS_SERVER_ERROR)
  ∧ (get_from_devops (RequestOutcome.success 200 (0 : Nat)) = Sum.inl (200, 0)) :=
  ⟨(get_from_devops_classification 404 0).2.2.2.2.1 (by decide) (by decide),
   (get_from_devops_classification 503 0).2.2.2.2.2.1 (by decide) (by decide),
   (get_from_devops_classification 200 0).2.2.2.2.2.2 (by decide) (by decide)⟩

/-- C4: `check_package_status_in_mongo` returns NOT_FOUND when the package is
absent from the store or its stored document fails to deserialise, UP_TO_DATE
exactly when the stored latest_version string-equals the upstream one,
OUT_OF_DATE otherwise; and when it returns UP_TO_DATE the orchestrator
processes the package list as if the package were not there at all (no fetch
for it). -/
theorem check_package_status_in_mongo_correct (package_name latest : String)
    (store : MongoStore) :
    (store.find_one package_name = none →
      check_package_status_in_mongo package_name latest store
        = MongoPackageStatus.NOT_FOUND)
  ∧ (store.find_one package_name = some none →
      check_package_status_in_mongo package_name latest store
        = MongoPackageStatus.NOT_FOUND)
  ∧ (∀ p, store.find_one package_name = some (some p) →
      ((check_package_status_in_mongo package_name latest store
          = MongoPackageStatus.UP_TO_DATE) ↔ p.latest_version = latest))
  ∧ (∀ p, store.find_one package_name = some (some p) →
      ((check_package_status_in_mongo package_name latest store
          = MongoPackageStatus.OUT_OF_DATE) ↔ p.latest_version ≠ latest))
  ∧ (∀ env count pkg rest,
      check_package_status_in_mongo pkg.name pkg.latest store
        = MongoPackageStatus.UP_TO_DATE →
      processPackages env store count (pkg :: rest)
        = processPackages env store count rest) := by
  refine ⟨?_, ?_, ?_, ?_, ?_⟩
  · intro h; simp [check_package_status_in_mongo, h]
  · intro h; simp [check_package_status_in_mongo, h]
  · intro p h
    simp only [check_package_status_in_mongo, h]
    by_cases he : p.latest_version = latest <;> simp [he]
  · intro p h
    simp only [check_package_status_in_mongo, h]
    by_cases he : p.latest_version = latest <;> simp [he]
  · intro env count pkg rest h
    simp [processPackages, h]

/-- Witness for C4 at a one-document store holding package foo at 1.0.0. -/
theorem check_package_status_in_mongo_correct_witness :
    check_package_status_in_mongo "foo" "1.0.0"
      ⟨[("foo", some { name := "foo", latest_version := "1.0.0" })]⟩
      = MongoPackageStatus.UP_TO_DATE :=
  ((check_package_status_in_mongo_correct "foo" "1.0.0"
      ⟨[("foo", some { name := "foo", latest_version := "1.0.0" })]⟩).2.2.1
    { name := "foo", latest_version := "1.0.0" } rfl).mpr rfl

/-- C10: the `NpmPackageVersion` dataclass default makes a stored version
document missing `hide_in_editor` deserialise with the flag true, while the
enrichment step always writes an explicit false when the upstream
`hideInEditor` field is absent, so a version written by a sync (whose every
field is serialised) never deserialises to the true default. -/
theorem hide_in_editor_default_mismatch (v d p : String)
    (deps : List (String × String)) (fb pkg : String)
    (npm : NpmPackageVersion) (json : RegistryVersion) :
    ({ version_number := v, description := d, publish_date := p,
       dependencies := deps } : NpmPackageVersion).hide_in_editor = true
  ∧ deserialise_hide_in_editor none = true
  ∧ (json.hideInEditor = none →
      (enrichVersion fb pkg npm json).hide_in_editor = false)
  ∧ deserialise_hide_in_editor
      (some ((enrichVersion fb pkg npm json).hide_in_editor))
      = (enrichVersion fb pkg npm json).hide_in_editor := by
  refine ⟨rfl, rfl, ?_, rfl⟩
  intro h
  simp [enrichVersion, h]

/-- Witness for C10 at a registry version with no hideInEditor field. -/
theorem hide_in_editor_default_mismatch_witness :
    (enrichVersion "fb" "pkg"
      { version_number := "1.0.0", description := "", publish_date := "2020",
        dependencies := [] }
      { dist := ⟨none, none⟩, author := none, displayName := none,
        unity := none, category := none, hideInEditor := none }).hide_in_editor
      = false :=
  (hide_in_editor_default_mismatch "1.0.0" "" "2020" [] "fb" "pkg"
    { version_number := "1.0.0", description := "", publish_date := "2020",
      dependencies := [] }
    { dist := ⟨none, none⟩, author := none, displayName := none,
      unity := none, category := none, hideInEditor := none }).2.2.1 rfl

/-- C6 counterexample: with the category absent and an author present whose
name is the empty string, Python `or` truthiness makes the enriched category
the literal unknown marker, not the author name. -/
theorem enrichVersion_category_empty_author_cex :
    ({ dist := ⟨none, none⟩, author := some ⟨""⟩, displayName := none,
       unity := none, category := none,
       hideInEditor := none } : RegistryVersion).category = none
  ∧ ({ dist := ⟨none, none⟩, author := some ⟨""⟩, displayName := none,
       unity := none, category := none,
       hideInEditor := none } : RegistryVersion).author = some ⟨""⟩
  ∧ (enrichVersion "fallback" "pkg"
      { version_number := "1.0.0", description := "", publish_date := "2020",
        dependencies := [] }
      { dist := ⟨none, none⟩, author := some ⟨""⟩, displayName := none,
        unity := none, category := none, hideInEditor := none }).category
      = some "Unknown"
  ∧ (enrichVersion "fallback" "pkg"
      { version_number := "1.0.0", description := "", publish_date := "2020",
        dependencies := [] }
      { dist := ⟨none, none⟩, author := some ⟨""⟩, displayName := none,
        unity := none, category := none, hideInEditor := none }).category
      ≠ some (RegistryAuthor.name ⟨""⟩) := by
  refine ⟨rfl, rfl, ?_, ?_⟩
  · simp [enrichVersion, pyOr]
  · simp [enrichVersion, pyOr, RegistryAuthor.name]

/-- C6 (amended): per-version display-field resolution of the enrichment
step. Author is the registry author name, falling back to the configured
fallback author when absent; display name falls back to the package name when
absent; the platform tag falls back to the unknown-version marker when
absent; category falls back first to the author name when an author with a
nonempty name is present, and otherwise (no author, or an empty author name)
to the literal unknown marker; the editor-visibility flag defaults to false
when absent. -/
theorem enrichVersion_display_fallbacks (fb pkg : String)
    (npm : NpmPackageVersion) (json : RegistryVersion) :
    (∀ a, json.author = some a →
      (enrichVersion fb pkg npm json).author = some a.name)
  ∧ (json.author = none → (enrichVersion fb pkg npm json).author = some fb)
  ∧ (json.displayName = none →
      (enrichVersion fb pkg npm json).display_name = some pkg)
  ∧ (json.unity = none →
      (enrichVersion fb pkg npm json).unity = some "Unknown Unity Version")
  ∧ (∀ a, json.category = none → json.author = some a → a.name ≠ "" →
      (enrichVersion fb pkg npm json).category = some a.name)
  ∧ (∀ a, json.category = none → json.author = some a → a.name = "" →
      (enrichVersion fb pkg npm json).category = some "Unknown")
  ∧ (json.category = none → json.author = none →
      (enrichVersion fb pkg npm json).category = some "Unknown")
  ∧ (json.hideInEditor = none →
      (enrichVersion fb pkg npm json).hide_in_editor = false) := by
  refine ⟨?_, ?_, ?_, ?_, ?_, ?_, ?_, ?_⟩
  · intro a h; simp [enrichVersion, h]
  · intro h; simp [enrichVersion, h]
  · intro h; simp [enrichVersion, pyOr, h]
  · intro h; simp [enrichVersion, pyOr, h]
  · intro a hc ha hn; simp [enrichVersion, pyOr, hc, ha, hn]
  · intro a hc ha hn; simp [enrichVersion, pyOr, hc, ha, hn]
  · intro hc ha; simp [enrichVersion, pyOr, hc, ha]
  · intro h; simp [enrichVersion, h]

/-- Witness for C6 at a registry version with no category and author alice. -/
theorem enrichVersion_display_fallbacks_witness :
    (enrichVersion "fb" "pkg"
      { version_number := "1.0.0", description := "", publish_date := "2020",
        dependencies := [] }
      { dist := ⟨none, none⟩, author := some ⟨"alice"⟩, displayName := none,
        unity := none, category := none, hideInEditor := none }).category
      = some "alice" :=
  (enrichVersion_display_fallbacks "fb" "pkg"
    { version_number := "1.0.0", description := "", publish_date := "2020",
      dependencies := [] }
    { dist := ⟨none, none⟩, author := some ⟨"alice"⟩, displayName := none,
      unity := none, category := none,
      hideInEditor := none }).2.2.2.2.1 ⟨"alice"⟩ rfl rfl (by decide)

/-- A lookup on a string-keyed association list succeeds exactly when some
pair with that key is a member. -/
theorem lookup_isSome_iff_exists_mem {β : Type} (l : List (String × β))
    (v : String) :
    (l.lookup v).isSome ↔ ∃ r, (v, r) ∈ l := by
  rw [List.lookup_isSome_iff]
  constructor
  · rintro ⟨⟨a, b⟩, hm, hb⟩
    have hv : v = a := by simpa using hb
    subst hv
    exact ⟨b, hm⟩
  · rintro ⟨r, hm⟩
    exact ⟨(v, r), hm, by simp⟩

/-- Key membership in the enrichment filterMap: a version id has an entry in
the output exactly when it has one in the input map and the registry version
lookup finds it. -/
theorem mem_enrich_filterMap_iff (fb pkg : String)
    (regVersions : List (String × RegistryVersion))
    (pv : List (String × NpmPackageVersion)) (v : String) :
    (∃ e, (v, e) ∈ pv.filterMap fun p =>
        match regVersions.lookup p.1 with
        | none => none
        | some json_version =>
          some (p.1, enrichVersion fb pkg p.2 json_version)) ↔
      ((∃ e, (v, e) ∈ pv) ∧ (regVersions.lookup v).isSome) := by
  induction pv with
  | nil => simp
  | cons hd tl ih =>
    obtain ⟨k, n⟩ := hd
    by_cases hv : v = k
    · subst hv
      cases hk : regVersions.lookup v with
      | none =>
        simp only [List.filterMap_cons, hk]
        rw [ih, hk]
        simp
      | some j =>
        simp only [List.filterMap_cons, hk]
        constructor
        · intro _
          exact ⟨⟨n, List.mem_cons_self _ _⟩, rfl⟩
        · intro _
          exact ⟨_, List.mem_cons_self _ _⟩
    · cases hk : regVersions.lookup k with
      | none =>
        simp only [List.filterMap_cons, hk]
        rw [ih]
        constructor
        · rintro ⟨⟨e, he⟩, hs⟩
          exact ⟨⟨e, List.mem_cons_of_mem _ he⟩, hs⟩
        · rintro ⟨⟨e, he⟩, hs⟩
          rcases List.mem_cons.mp he with h | h
          · exact absurd (congrArg Prod.fst h) hv
          · exact ⟨⟨e, h⟩, hs⟩
      | some j =>
        simp only [List.filterMap_cons, hk]
        constructor
        · rintro ⟨e, he⟩
          rcases List.mem_cons.mp he with h | h
          · exact absurd (congrArg Prod.fst h) hv
          · rcases ih.mp ⟨e, h⟩ with ⟨⟨e2, he2⟩, hs⟩
            exact ⟨⟨e2, List.mem_cons_of_mem _ he2⟩, hs⟩
        · rintro ⟨⟨e, he⟩, hs⟩
          rcases List.mem_cons.mp he with h | h
          · exact absurd (congrArg Prod.fst h) hv
          · rcases ih.mpr ⟨⟨e, h⟩, hs⟩ with ⟨e2, he2⟩
            exact ⟨e2, List.mem_cons_of_mem _ he2⟩

/-- C3: applied to a successful registry response, the enrichment step
returns a version map (not an error) whose keys are exactly the version ids
present in both the feed-derived input map and the registry document's
version map. -/
theorem enrichment_output_keys (fb pkg : String)
    (package_versions : List (String × NpmPackageVersion)) (doc : RegistryDoc) :
    ∃ out,
      get_extra_npm_info_from_devops_npm_registry fb pkg package_versions
        (RequestOutcome.success 200 doc) = Sum.inl out
      ∧ ∀ v, (∃ e, (v, e) ∈ out) ↔
          ((∃ e, (v, e) ∈ package_versions) ∧ ∃ r, (v, r) ∈ doc.versions) := by
  refine ⟨_, rfl, ?_⟩
  intro v
  rw [mem_enrich_filterMap_iff]
  have hred : ((200, doc).2).versions = doc.versions := rfl
  rw [hred, lookup_isSome_iff_exists_mem]

/-- C7: for a valid package (latest version present in its version map), two
projections of the same input both succeed and produce documents identical in
every field except the synthetic revision token. -/
theorem projection_pure_except_rev (package_name : String)
    (package : NpmPackage) (r1 r2 : String)
    (h : (package.versions.lookup package.latest_version).isSome) :
    (package_route_project package_name package r1).isSome
  ∧ ∀ d1 d2, package_route_project package_name package r1 = some d1 →
      package_route_project package_name package r2 = some d2 →
      d1.revField = r1 ∧ d2.revField = r2 ∧ d1 = { d2 with revField := r1 } := by
  cases hl : package.versions.lookup package.latest_version with
  | none => rw [hl] at h; simp at h
  | some lv =>
    constructor
    · simp [package_route_project, hl]
    · intro d1 d2 h1 h2
      simp only [package_route_project, hl, Option.some.injEq] at h1 h2
      subst h1
      subst h2
      exact ⟨rfl, rfl, rfl⟩

/-- Witness for C7 at a one-version package projected with two tokens. -/
theorem projection_pure_except_rev_witness :
    (package_route_project "foo"
      { name := "foo", latest_version := "1.0.0",
        versions := [("1.0.0",
          { version_number := "1.0.0", description := "d",
            publish_date := "2020", dependencies := [] })] }
      "aaaa").isSome :=
  (projection_pure_except_rev "foo"
    { name := "foo", latest_version := "1.0.0",
      versions := [("1.0.0",
        { version_number := "1.0.0", description := "d",
          publish_date := "2020", dependencies := [] })] }
    "aaaa" "bbbb" (by rfl)).1

/-- C8: the full-detail read endpoint returns 404 when the package name is
absent from the store; given a stored record that deserialises, it fails with
the server-side projection fault exactly when the record's latest_version is
not a key of its own versions map, and succeeds when it is. -/
theorem package_route_error_cases (package_name : String) (store : MongoStore)
    (rev : String) :
    (store.find_one package_name = none →
      package_route package_name store rev = RouteResult.notFound404)
  ∧ (∀ p, store.find_one package_name = some (some p) →
      ((package_route package_name store rev = RouteResult.projectionError500)
        ↔ p.versions.lookup p.latest_version = none))
  ∧ (∀ p, store.find_one package_name = some (some p) →
      (p.versions.lookup p.latest_version).isSome →
      ∃ doc, package_route package_name store rev = RouteResult.ok doc) := by
  refine ⟨?_, ?_, ?_⟩
  · intro h
    simp [package_route, h]
  · intro p h
    simp only [package_route, h]
    cases hl : p.versions.lookup p.latest_version with
    | none => simp [package_route_project, hl]
    | some lv => simp [package_route_project, hl]
  · intro p h hs
    cases hl : p.versions.lookup p.latest_version with
    | none => rw [hl] at hs; simp at hs
    | some lv =>
      cases hp : package_route_project package_name p rev with
      | none => simp [package_route_project, hl] at hp
      | some doc => exact ⟨doc, by simp [package_route, h, hp]⟩

/-- Witness for C8: a stored record whose latest_version is missing from its
own versions map yields the projection fault. -/
theorem package_route_error_cases_witness :
    package_route "foo"
      ⟨[("foo",
         some
           { name := "foo", latest_version := "2.0.0",
             versions := [("1.0.0",
               { version_number := "1.0.0", description := "d",
                 publish_date := "2020", dependencies := [] })] })]⟩
      "aaaa" = RouteResult.projectionError500 :=
  ((package_route_error_cases "foo"
      ⟨[("foo",
         some
           { name := "foo", latest_version := "2.0.0",
             versions := [("1.0.0",
               { version_number := "1.0.0", description := "d",
                 publish_date := "2020", dependencies := [] })] })]⟩
      "aaaa").2.1
    { name := "foo", latest_version := "2.0.0",
      versions := [("1.0.0",
        { version_number := "1.0.0", description := "d",
          publish_date := "2020", dependencies := [] })] } rfl).mpr rfl

/-- C2: an upstream auth failure at either per-package fetch step makes the
run return early with only the failing package's fetch events appended, the
store untouched from that point on, and no package after the failing one
processed, regardless of the current error-budget count. -/
theorem auth_failure_aborts_run (env : SyncEnv) (store : MongoStore)
    (count : Nat) (pkg : PackageEntry) (rest : List PackageEntry) :
    (check_package_status_in_mongo pkg.name pkg.latest store
        ≠ MongoPackageStatus.UP_TO_DATE →
      get_npm_versions_from_devops_feed (env.feedOutcome pkg.versions_href)
        = Sum.inr NetworkError.DEVOPS_AUTH_FAILURE →
      processPackages env store count (pkg :: rest)
        = ([RunEvent.fetchFeed pkg.name], store, RunOutcome.abortedEarly))
  ∧ (check_package_status_in_mongo pkg.name pkg.latest store
        ≠ MongoPackageStatus.UP_TO_DATE →
      ∀ pv, get_npm_versions_from_devops_feed (env.feedOutcome pkg.versions_href)
        = Sum.inl pv →
      pv.length ≠ 0 →
      get_extra_npm_info_from_devops_npm_registry env.fallback_author pkg.name pv
        (env.registryOutcome pkg.name)
        = Sum.inr NetworkError.DEVOPS_AUTH_FAILURE →
      processPackages env store count (pkg :: rest)
        = ([RunEvent.fetchFeed pkg.name, RunEvent.fetchRegistry pkg.name],
            store, RunOutcome.abortedEarly)) := by
  constructor
  · intro hstat hfeed
    simp [processPackages, hstat, hfeed, validate_package_versions]
  · intro hstat pv hfeed hlen hreg
    simp [processPackages, hstat, hfeed, hlen, hreg, validate_package_versions]

/-- Witness for C2: the run aborts on the first package's auth failure and
never reaches the second package. -/
theorem auth_failure_aborts_run_witness :
    processPackages
      { fallback_author := "fb"
        packageListOutcome := RequestOutcome.success 200 []
        feedOutcome := fun _ => RequestOutcome.success 203 []
        registryOutcome := fun _ => RequestOutcome.success 203 ⟨[]⟩ }
      ⟨[]⟩ 0
      [{ name := "foo", latest := "1.0.0", versions_href := "u" },
       { name := "bar", latest := "1.0.0", versions_href := "u" }]
      = ([RunEvent.fetchFeed "foo"], ⟨[]⟩, RunOutcome.abortedEarly) :=
  (auth_failure_aborts_run
    { fallback_author := "fb"
      packageListOutcome := RequestOutcome.success 200 []
      feedOutcome := fun _ => RequestOutcome.success 203 []
      registryOutcome := fun _ => RequestOutcome.success 203 ⟨[]⟩ }
    ⟨[]⟩ 0
    { name := "foo", latest := "1.0.0", versions_href := "u" }
    [{ name := "bar", latest := "1.0.0", versions_href := "u" }]).1
    (by decide) (by rfl)

/-- C1 (code behaviour at the claimed failing input): a run over six packages
whose feed fetches all fail with a connection error processes every package,
skips each one, and completes normally; the error budget never trips because
`validate_package_versions` increments a by-value copy of the counter and
`download` never updates its own. -/
theorem error_budget_never_trips :
    download
      { fallback_author := "fb"
        packageListOutcome := RequestOutcome.success 200
          [⟨"p1", "1", "u1"⟩, ⟨"p2", "1", "u2"⟩, ⟨"p3", "1", "u3"⟩,
           ⟨"p4", "1", "u4"⟩, ⟨"p5", "1", "u5"⟩, ⟨"p6", "1", "u6"⟩]
        feedOutcome := fun _ => RequestOutcome.connectionError
        registryOutcome := fun _ => RequestOutcome.connectionError }
      ⟨[]⟩
      = DownloadResult.ran
          [RunEvent.fetchFeed "p1", RunEvent.fetchFeed "p2",
           RunEvent.fetchFeed "p3", RunEvent.fetchFeed "p4",
           RunEvent.fetchFeed "p5", RunEvent.fetchFeed "p6"]
          ⟨[]⟩ RunOutcome.completed := by
  rfl

/-- C9 (code behaviour at the failing input): when the package-list fetch
times out, `download` does not stop after logging; it evaluates `.json()` on
the `NetworkError` value and crashes. -/
theorem package_list_error_not_handled :
    download
      { fallback_author := "fb"
        packageListOutcome := RequestOutcome.timeout
        feedOutcome := fun _ => RequestOutcome.timeout
        registryOutcome := fun _ => RequestOutcome.timeout }
      ⟨[]⟩ = DownloadResult.crashed := by
  rfl

end UpmProxy
